import Mathlib

/-!
Shallow embedding of the granular-synthesis engine (`src/granular.rs`) and the
dual 4051 multiplexer reader (`src/dual_mux_4051.rs`) of the
sitira-embedded-daisy firmware, together with proofs settling the frozen
claims about them.

Modelling conventions:
* Rust `u32` values are `Nat`s kept below `2^32`; release-build wrapping
  arithmetic is modelled by `u32_wrap` / `u32_sub` (explicit `% 2^32`), and
  the overflow check that a debug build performs on `+` / `-` is modelled by
  the `checked_*` variants returning `Option` (`none` = arithmetic fault).
* Rust `f32` values are modelled as exact rationals `ℚ`; every concrete
  value appearing in the claims (grain sizes such as `48.0`, playheads that
  advance by `1.0`, window coefficients `0.5`, `0.54`, `0.46`) is exactly
  representable in `f32`, so the exact model agrees with the machine floats
  there.  (One knowing divergence: `f32` division by `0.0` yields `inf`
  while `ℚ` yields `0`; no claim depends on a value produced that way.)
* The trigonometric functions come from the `micromath` crate approximation;
  they are kept abstract as parameters `sn cs : ℚ → ℚ`, so a theorem like
  "the Sine window returns `sin (PI * t / L)`" states exactly that the code
  applies the library sine to `PI * t / L`.
* The `as u32` saturating cast from `f32` is `f32_as_u32` (floor, clamped to
  `[0, 2^32 - 1]`).
-/

/-- `2^32`, the modulus of Rust `u32` arithmetic. -/
def U32_MOD : Nat := 2 ^ 32

/-- Wrapping of a `Nat` into `u32` range (release-build `u32` addition is
`u32_wrap (a + b)`). -/
def u32_wrap (n : Nat) : Nat := n % U32_MOD

/-- Release-build (wrapping) `u32` subtraction `a - b` for `a < 2^32`. -/
def u32_sub (a b : Nat) : Nat := (a + U32_MOD - b % U32_MOD) % U32_MOD

/-- Debug-build (overflow-checked) `u32` addition: `none` models the
`attempt to add with overflow` panic. -/
def checked_add_u32 (a b : Nat) : Option Nat :=
  if a + b < U32_MOD then some (a + b) else none

/-- Debug-build (overflow-checked) `u32` subtraction: `none` models the
`attempt to subtract with overflow` panic. -/
def checked_sub_u32 (a b : Nat) : Option Nat :=
  if b ≤ a then some (a - b) else none

/-- Rust's saturating `as u32` cast applied to a (finite) `f32` value:
truncation toward zero, clamped into `[0, u32::MAX]`. -/
def f32_as_u32 (x : ℚ) : Nat := min (max ⌊x⌋ 0).toNat (U32_MOD - 1)

/-- `libdaisy::AUDIO_SAMPLE_RATE` (the Daisy platform runs at 48 kHz). -/
def AUDIO_SAMPLE_RATE : ℚ := 48000

/-- `const PI: f32 = 3.141592653589793;` from `granular.rs` (as a literal). -/
def PI : ℚ := 3.141592653589793

/-- `const MAX_GRAINS: usize = 64;` from `granular.rs`. -/
def MAX_GRAINS : Nat := 64

/-- `enum WindowFunction` from `granular.rs`. -/
inductive WindowFunction
  | Trapezodial
  | Gaussian
  | Sine
  | Hann
  | Hamming
  | Tukey
  deriving DecidableEq, Repr

/-- `struct Grain` from `granular.rs`.  `u32` fields are `Nat`, `f32` fields
are `ℚ`. -/
structure Grain where
  offset : Nat
  current_position : Nat
  gain : ℚ
  size : ℚ
  playhead : ℚ
  sample_length : Nat
  done_with_window_funtion : Bool
  window : WindowFunction
  deriving DecidableEq, Repr

/-- `Grain::new(grain_length, sample_length, window_function)`:
clamps `grain_length` below by `1.0`, hard-codes `offset = 1_000` and
`gain = 0.7`, derives `size = AUDIO_SAMPLE_RATE * grain_length / 1000.0`,
and starts with `done_with_window_funtion = true`. -/
def Grain.new (grain_length : ℚ) (sample_length : Nat)
    (window_function : WindowFunction) : Grain :=
  let grain_length := if grain_length < 1 then 1 else grain_length
  { offset := 1000
    current_position := 0
    gain := 0.7
    size := AUDIO_SAMPLE_RATE * grain_length / 1000
    playhead := 0
    sample_length := sample_length
    done_with_window_funtion := true
    window := window_function }

/-- `Grain::update_sample_position` (release-build wrapping semantics):
returns `offset + current_position`, advances `current_position` by `5`,
and resets it to `0` (setting `done_with_window_funtion`) once it exceeds
`sample_length - size as u32`. -/
def Grain.update_sample_position (g : Grain) : Nat × Grain :=
  let position := u32_wrap (g.offset + g.current_position)
  let cp := u32_wrap (g.current_position + 5)
  if u32_sub g.sample_length (f32_as_u32 g.size) < cp then
    (position, { g with current_position := 0, done_with_window_funtion := true })
  else
    (position, { g with current_position := cp })

/-- `Grain::update_sample_position` under debug-build overflow checking:
`none` models an arithmetic-overflow panic in `offset + current_position`,
`current_position + 5` or `sample_length - size as u32`. -/
def Grain.update_sample_position_checked (g : Grain) : Option (Nat × Grain) :=
  (checked_add_u32 g.offset g.current_position).bind fun position =>
    (checked_add_u32 g.current_position 5).bind fun cp =>
      (checked_sub_u32 g.sample_length (f32_as_u32 g.size)).map fun limit =>
        if limit < cp then
          (position, { g with current_position := 0, done_with_window_funtion := true })
        else
          (position, { g with current_position := cp })

/-- `Grain::set_gain`: clamps the argument into `[0, 1]` (two sequential
saturation tests, as in the source) and stores it. -/
def Grain.set_gain (g : Grain) (value : ℚ) : Grain :=
  let value := if 1 < value then 1 else value
  let value := if value < 0 then 0 else value
  { g with gain := value }

/-- `Grain::set_offset` (release-build wrapping semantics): clamps the new
offset to `max_offset = sample_length - size as u32`, stores it, and
returns the previous offset (`core::mem::replace`). -/
def Grain.set_offset (g : Grain) (offset : Nat) : Nat × Grain :=
  let max_offset := u32_sub g.sample_length (f32_as_u32 g.size)
  let offset := if max_offset < offset then max_offset else offset
  (g.offset, { g with offset := offset })

/-- `Grain::set_offset` under debug-build overflow checking: `none` models
an arithmetic-overflow panic in `sample_length - size as u32`. -/
def Grain.set_offset_checked (g : Grain) (offset : Nat) : Option (Nat × Grain) :=
  (checked_sub_u32 g.sample_length (f32_as_u32 g.size)).map fun max_offset =>
    let offset := if max_offset < offset then max_offset else offset
    (g.offset, { g with offset := offset })

/-- `Grain::start_window_funtion`: clears `done_with_window_funtion` and
resets `current_position` (the playhead is NOT touched by the source). -/
def Grain.start_window_funtion (g : Grain) : Grain :=
  { g with done_with_window_funtion := false, current_position := 0 }

/-- The `match self.window` block of `Grain::update_window_function`:
the window value at playhead `playhead` for a grain of size `size`,
with the `micromath` sine/cosine kept abstract as `sn` / `cs`.
`window_sample` is initialised to `0.0` and the reserved kinds fall through
the `_ => ()` arm, so they yield `0`. -/
def windowValue (sn cs : ℚ → ℚ) (w : WindowFunction) (playhead size : ℚ) : ℚ :=
  match w with
  | WindowFunction.Sine => sn (PI * playhead / size)
  | WindowFunction.Hann => 0.5 * (1 - cs (2 * PI * playhead / size))
  | WindowFunction.Hamming => 0.54 - 0.46 * cs (2 * PI * playhead / size)
  | _ => 0

/-- `Grain::update_window_function`: computes the window sample at the
current playhead, then — only if the grain is not done — advances the
playhead by `1.0`, wrapping it to `0.0` and setting
`done_with_window_funtion` once `playhead ≥ size`. -/
def Grain.update_window_function (sn cs : ℚ → ℚ) (g : Grain) : ℚ × Grain :=
  let window_sample := windowValue sn cs g.window g.playhead g.size
  if g.done_with_window_funtion then
    (window_sample, g)
  else if g.playhead < g.size then
    (window_sample, { g with playhead := g.playhead + 1 })
  else
    (window_sample, { g with playhead := 0, done_with_window_funtion := true })

/-- `Grain::update_next_sample`: `sample * self.update_window_function()`. -/
def Grain.update_next_sample (sn cs : ℚ → ℚ) (g : Grain) (sample : ℚ) :
    ℚ × Grain :=
  let r := g.update_window_function sn cs
  (sample * r.1, r.2)

/-- `struct Grains` from `granular.rs`; the fixed `[Grain; MAX_GRAINS]`
array is a length-64 list. -/
structure Grains where
  grains : List Grain
  grain_size : ℚ
  grain_size_spread : ℚ
  active_grains : Nat
  deriving Repr

/-- `Grains::new(grain_amount, grain_size_in_ms, grain_size_spread_in_ms,
sample_length, window_function)`, translated statement by statement:
`active_grains` starts at `0`, becomes `MAX_GRAINS` when
`grain_amount > MAX_GRAINS` and `1` when `grain_amount == 0` — and is left
at `0` otherwise, exactly as in the source; the spread is
`grain_size_spread_in_ms / active_grains` (exact `ℚ` division standing in
for the `f32` division), and the first `active_grains` slots are rebuilt
with `Grain::new(instance * spread + grain_size, …)`. -/
def Grains.new (grain_amount : Nat) (grain_size_in_ms grain_size_spread_in_ms : ℚ)
    (sample_length : Nat) (window_function : WindowFunction) : Grains :=
  let grains := List.replicate MAX_GRAINS (Grain.new 1 sample_length window_function)
  let active_grains := 0
  let active_grains := if MAX_GRAINS < grain_amount then MAX_GRAINS else active_grains
  let active_grains := if grain_amount = 0 then 1 else active_grains
  let grain_size_spread := grain_size_spread_in_ms / (active_grains : ℚ)
  let grain_size := grain_size_in_ms
  let grains := (List.range active_grains).foldl
    (fun gs i =>
      gs.set i (Grain.new ((i : ℚ) * grain_size_spread + grain_size)
        sample_length window_function))
    grains
  { grains := grains
    grain_size := grain_size
    grain_size_spread := grain_size_spread
    active_grains := active_grains }

/-- `Grains::set_offset`: forwards the offset to the first `active_grains`
grains. -/
def Grains.set_offset (gs : Grains) (offset : Nat) : Grains :=
  { gs with grains := gs.grains.mapIdx fun i g =>
      if i < gs.active_grains then (g.set_offset offset).2 else g }

/-- `Grains::start_window_funtion`: arms the first `active_grains` grains. -/
def Grains.start_window_funtion (gs : Grains) : Grains :=
  { gs with grains := gs.grains.mapIdx fun i g =>
      if i < gs.active_grains then g.start_window_funtion else g }

/-- `const MUX_INPUTS: usize = 8;` from `dual_mux_4051.rs`; the last-read
cache is `[f32; MUX_INPUTS * 2]`, i.e. 16 slots. -/
def MUX_INPUTS : Nat := 8

/-- `const ONE_BIT_MASK: u8 = 0b1;` from `dual_mux_4051.rs`. -/
def ONE_BIT_MASK : Nat := 1

/-- `DualMux::set_select_pins`: clamps the requested input to `[0, 15]`,
extracts the three low bits, and drives the three select pins
(`true` = `set_high`, `false` = `set_low`). -/
def set_select_pins (input_number : Nat) : Bool × Bool × Bool :=
  let input_number := min (max input_number 0) 15
  let first_bit := input_number &&& ONE_BIT_MASK
  let second_bit := (input_number >>> 1) &&& ONE_BIT_MASK
  let third_bit := (input_number >>> 2) &&& ONE_BIT_MASK
  (first_bit == 1, second_bit == 1, third_bit == 1)

/-- Which of the two 4051 multiplexers a conversion is started on. -/
inductive WhichMux
  | A
  | B
  deriving DecidableEq, Repr

/-- The dispatch `match` of `DualMux::read_value`: the `0..=8` arm converts
through `mux1_pin` (multiplexer A), the `9..=16` arm through `mux2_pin`
(multiplexer B), anything else starts no conversion. -/
def read_value_route (input_number : Nat) : Option WhichMux :=
  if input_number ≤ 8 then some WhichMux.A
  else if input_number ≤ 16 then some WhichMux.B
  else none

/-- The cache update `self.value[input_number] = data as f32 *
self.conversion_value` of `DualMux::read_value`: a Rust array write that
panics out of bounds, so `none` models the index-out-of-bounds panic.
The stored sample is already the normalized `raw * (1 / adc_max)`. -/
def write_value (value : List ℚ) (input_number : Nat) (sample : ℚ) :
    Option (List ℚ) :=
  if input_number < value.length then some (value.set input_number sample)
  else none

/-- `DualMux::get_value`: the (panicking, hence `Option`) array read
`self.value[input_number]`. -/
def get_value (value : List ℚ) (input_number : Nat) : Option ℚ :=
  value.get? input_number

/-- Modelled from the spec's words, for comparison with `set_select_pins`:
"drives the 3 select pins with the binary pattern of `channel mod 8`". -/
def spec_select_pattern (channel : Nat) : Bool × Bool × Bool :=
  let m := channel % 8
  (m &&& 1 == 1, (m >>> 1) &&& 1 == 1, (m >>> 2) &&& 1 == 1)

/-- A concrete stand-in for the abstract micromath sine/cosine parameters,
used to build concrete execution traces. -/
def zeroFn : ℚ → ℚ := fun _ => 0

/-- A reachable grain state with a non-zero playhead: construct a grain, arm
it, and pull three samples (each advances the playhead by `1.0`). -/
def c4Grain : Grain :=
  let g := (Grain.new 1 48000 WindowFunction.Sine).start_window_funtion
  let g := (g.update_next_sample zeroFn zeroFn 0).2
  let g := (g.update_next_sample zeroFn zeroFn 0).2
  (g.update_next_sample zeroFn zeroFn 0).2

/-- On in-range arguments the wrapping `u32` subtraction is plain
subtraction. -/
theorem u32_sub_eq_sub (a b : Nat) (hb : b ≤ a) (ha : a < U32_MOD) :
    u32_sub a b = a - b := by
  have hb' : b % U32_MOD = b := Nat.mod_eq_of_lt (lt_of_le_of_lt hb ha)
  have h1 : a + U32_MOD - b % U32_MOD = (a - b) + U32_MOD := by
    rw [hb']; omega
  rw [u32_sub, h1, Nat.add_mod_right, Nat.mod_eq_of_lt (by omega)]

/-- Evaluation helper: `Int.toNat` of the literal occurring in the grain-size
computations. -/
theorem int_toNat_48 : Int.toNat 48 = 48 := rfl

/-- Claim C1: the spec says `Grains::new(n, …)` clamps the grain count into
`[1, MAX_GRAINS]`, with `active_grains = n` for `1 ≤ n ≤ 64`.  The code
initialises `active_grains` to `0` and only ever assigns it for `n > 64`
(→ 64) and `n = 0` (→ 1), so every in-range request leaves
`active_grains = 0`: at `n = 5` the pool is constructed with
`active_grains = 0` instead of `5`, while the two boundary reassignments do
behave as documented. -/
theorem grains_new_active_grains_bug :
    (Grains.new 5 80 0 48000 WindowFunction.Sine).active_grains = 0 ∧
    (Grains.new 0 80 0 48000 WindowFunction.Sine).active_grains = 1 ∧
    (Grains.new 100 80 0 48000 WindowFunction.Sine).active_grains = 64 :=
  ⟨rfl, rfl, rfl⟩

/-- Claim C2: the spec says `sample_length = 0` yields silence and never a
fault, yet both `update_sample_position` and `set_offset` compute
`sample_length - size as u32` on `u32`.  For `Grain::new(1.0, 0, Sine)`
(`size = 48`) that subtraction underflows: under overflow checking both
operations fault (`none`), and the release-build wrapping semantics turns
the bound into `2^32 - 48`, so the grain scans far past the empty buffer
instead of going silent. -/
theorem zero_sample_length_arithmetic_fault :
    (Grain.new 1 0 WindowFunction.Sine).update_sample_position_checked = none ∧
    (Grain.new 1 0 WindowFunction.Sine).set_offset_checked 0 = none ∧
    u32_sub (Grain.new 1 0 WindowFunction.Sine).sample_length
      (f32_as_u32 (Grain.new 1 0 WindowFunction.Sine).size) = U32_MOD - 48 := by
  refine ⟨?_, ?_, ?_⟩ <;>
    norm_num [Grain.update_sample_position_checked, Grain.set_offset_checked,
      Grain.new, AUDIO_SAMPLE_RATE, f32_as_u32, U32_MOD, u32_sub,
      checked_add_u32, checked_sub_u32, int_toNat_48]

/-- Claim C3: the spec says `advance_position()` never returns an index
`≥ sample_length` for any constructor-valid starting offset.  But
`Grain::new` hard-codes `offset = 1_000` without clamping it to the sample
length, so the very first call on `Grain::new(1.0, 500, Sine)` returns
index `1000 ≥ 500`. -/
theorem advance_position_exceeds_sample_length :
    (Grain.new 1 500 WindowFunction.Sine).sample_length = 500 ∧
    ((Grain.new 1 500 WindowFunction.Sine).update_sample_position).1 = 1000 ∧
    500 ≤ ((Grain.new 1 500 WindowFunction.Sine).update_sample_position).1 := by
  refine ⟨by decide, ?_, ?_⟩ <;>
    norm_num [Grain.update_sample_position, Grain.new, AUDIO_SAMPLE_RATE,
      f32_as_u32, U32_MOD, u32_wrap, u32_sub, int_toNat_48]

/-- Claim C4 (counterexample): the claim says `start_window_funtion` resets
`playhead = 0` for every prior grain state.  `c4Grain` is a reachable state
with `playhead = 3`, and two consecutive `start_window_funtion` calls leave
its playhead untouched (non-zero). -/
theorem start_window_funtion_playhead_counterexample :
    ¬ (c4Grain.start_window_funtion.start_window_funtion.playhead = 0) := by
  norm_num [c4Grain, Grain.new, Grain.start_window_funtion,
    Grain.update_next_sample, Grain.update_window_function, windowValue,
    zeroFn, AUDIO_SAMPLE_RATE]

/-- Claim C4 (amended): `start_window_funtion` resets
`current_position = 0` and `done = false` but leaves the playhead
unchanged; it is idempotent (a second call is a no-op on the state). -/
theorem start_window_funtion_amended (g : Grain) :
    g.start_window_funtion.done_with_window_funtion = false ∧
    g.start_window_funtion.current_position = 0 ∧
    g.start_window_funtion.playhead = g.playhead ∧
    g.start_window_funtion.start_window_funtion = g.start_window_funtion :=
  ⟨rfl, rfl, rfl, rfl⟩

/-- Claim C5 (counterexample): the claim says `set_offset(x)` then
`set_offset(y)` returns `x` for all `x`, `y`.  For
`Grain::new(1.0, 100, Sine)` (`size = 48`, so `max_offset = 52`) the call
`set_offset(60)` stores the clamped value `52`, and the following
`set_offset(0)` returns `52`, not `60`. -/
theorem set_offset_round_trip_counterexample :
    ¬ ((((Grain.new 1 100 WindowFunction.Sine).set_offset 60).2.set_offset 0).1
        = 60) := by
  norm_num [Grain.set_offset, Grain.new, AUDIO_SAMPLE_RATE, f32_as_u32,
    U32_MOD, u32_sub, int_toNat_48]

/-- Claim C5 (amended): `set_offset` stores the offset clamped into
`[0, sample_length - size as u32]` and returns the previous offset, so the
round trip `set_offset(x); set_offset(y)` returns `x` exactly when `x` is
within the clamp range (no error is ever propagated — the fallible
(`checked`) variant is only about the `sample_length < size` underflow
settled in C2). -/
theorem set_offset_round_trip (g : Grain) (x y : Nat)
    (hlen : g.sample_length < U32_MOD)
    (hsz : f32_as_u32 g.size ≤ g.sample_length)
    (hx : x ≤ g.sample_length - f32_as_u32 g.size) :
    ((g.set_offset x).2.set_offset y).1 = x ∧
    ∀ v, ((g.set_offset v).2).offset ≤ g.sample_length - f32_as_u32 g.size := by
  have hmax : u32_sub g.sample_length (f32_as_u32 g.size)
      = g.sample_length - f32_as_u32 g.size := u32_sub_eq_sub _ _ hsz hlen
  have hx' : ¬ (u32_sub g.sample_length (f32_as_u32 g.size) < x) := by
    rw [hmax]; omega
  constructor
  · simp [Grain.set_offset, hx']
  · intro v
    simp only [Grain.set_offset]
    rw [hmax]
    split <;> omega

/-- Witness for `set_offset_round_trip` at a concrete grain. -/
theorem set_offset_round_trip_witness :
    (((Grain.new 1 100 WindowFunction.Sine).set_offset 52).2.set_offset 7).1
      = 52 :=
  (set_offset_round_trip (Grain.new 1 100 WindowFunction.Sine) 52 7
    (by norm_num [Grain.new, U32_MOD])
    (by norm_num [Grain.new, AUDIO_SAMPLE_RATE, f32_as_u32, U32_MOD,
      int_toNat_48])
    (by norm_num [Grain.new, AUDIO_SAMPLE_RATE, f32_as_u32, U32_MOD,
      int_toNat_48])).1

/-- Claim C6 (counterexample): the claim says `update_next_sample` always
advances the playhead by one step.  A freshly constructed grain has
`done_with_window_funtion = true`, and the source only advances the
playhead when the grain is not done: after one call on
`Grain::new(1.0, 48000, Sine)` the playhead is still `0`, not `0 + 1`. -/
theorem update_next_sample_no_advance_counterexample :
    ¬ ((((Grain.new 1 48000 WindowFunction.Sine).update_next_sample
          zeroFn zeroFn 1).2).playhead
        = (Grain.new 1 48000 WindowFunction.Sine).playhead + 1) := by
  norm_num [Grain.update_next_sample, Grain.update_window_function,
    Grain.new, AUDIO_SAMPLE_RATE]

/-- Claim C6 (amended): `update_next_sample(x)` returns `x` times the window
value at the current playhead; then, only when the grain is not done, it
advances the playhead by one step, wrapping it to `0` and setting `done`
once `playhead ≥ size`. -/
theorem update_next_sample_amended (sn cs : ℚ → ℚ) (g : Grain) (x : ℚ) :
    (g.update_next_sample sn cs x).1
      = x * windowValue sn cs g.window g.playhead g.size ∧
    (g.update_next_sample sn cs x).2.playhead
      = (if g.done_with_window_funtion then g.playhead
          else if g.playhead < g.size then g.playhead + 1 else 0) ∧
    (g.update_next_sample sn cs x).2.done_with_window_funtion
      = (g.done_with_window_funtion || !(decide (g.playhead < g.size))) := by
  rcases g with ⟨o, cp, gn, sz, ph, sl, dn, w⟩
  cases dn <;>
    by_cases h : ph < sz <;>
      simp [Grain.update_next_sample, Grain.update_window_function, h]

/-- Claim C7: the window generator's value is given by the `match` on the
window kind: `sn (PI*t/L)` for Sine, `0.5*(1 - cs (2*PI*t/L))` for Hann,
`0.54 - 0.46*cs (2*PI*t/L)` for Hamming, and exactly `0` for the reserved
kinds Trapezodial, Gaussian and Tukey (with `sn`/`cs` the micromath
sine/cosine and `PI` the source's constant). -/
theorem window_function_formulas (sn cs : ℚ → ℚ) (g : Grain) (t L : ℚ) :
    (g.update_window_function sn cs).1
      = windowValue sn cs g.window g.playhead g.size ∧
    windowValue sn cs WindowFunction.Sine t L = sn (PI * t / L) ∧
    windowValue sn cs WindowFunction.Hann t L
      = 0.5 * (1 - cs (2 * PI * t / L)) ∧
    windowValue sn cs WindowFunction.Hamming t L
      = 0.54 - 0.46 * cs (2 * PI * t / L) ∧
    windowValue sn cs WindowFunction.Trapezodial t L = 0 ∧
    windowValue sn cs WindowFunction.Gaussian t L = 0 ∧
    windowValue sn cs WindowFunction.Tukey t L = 0 := by
  refine ⟨?_, rfl, rfl, rfl, rfl, rfl, rfl⟩
  rcases g with ⟨o, cp, gn, sz, ph, sl, dn, w⟩
  cases dn <;>
    by_cases h : ph < sz <;>
      simp [Grain.update_window_function, h]

/-- Claim C8 (counterexample): the claim says every accepted channel drives
the select pins with the binary pattern of `channel mod 8`.  Channel 16 is
accepted by the `9..=16` arm, but `set_select_pins` clamps it to 15 and
drives `0b111`, not the pattern of `16 mod 8 = 0`; the subsequent store
`value[16]` is moreover out of bounds in the 16-element cache. -/
theorem read_value_channel16_select_counterexample :
    ¬ (set_select_pins 16 = spec_select_pattern 16) ∧
    read_value_route 16 = some WhichMux.B ∧
    write_value (List.replicate 16 0) 16 1 = none := by
  refine ⟨by decide, by decide, by decide⟩

/-- Claim C8 (amended): for every channel `0 ≤ ch ≤ 15`, `read_value` routes
channels `≤ 8` through multiplexer A and channels `≥ 9` through
multiplexer B (never A; in particular channel 9), drives the select pins
with the binary pattern of `ch mod 8`, and stores the normalized sample
`raw * (1 / adc_max)` at index `ch` of the 16-slot cache.  (Channel 16 is
also accepted and routed through B, but its select pattern is the clamped
`0b111` and its store faults — see the counterexample.) -/
theorem read_value_routing_amended (ch : Nat) (hch : ch ≤ 15) (data cv : ℚ)
    (v : List ℚ) (hv : v.length = 16) :
    (ch ≤ 8 → read_value_route ch = some WhichMux.A) ∧
    (9 ≤ ch → read_value_route ch = some WhichMux.B) ∧
    set_select_pins ch = spec_select_pattern ch ∧
    write_value v ch (data * cv) = some (v.set ch (data * cv)) ∧
    get_value (v.set ch (data * cv)) ch = some (data * cv) := by
  refine ⟨?_, ?_, ?_, ?_, ?_⟩
  · intro h
    simp [read_value_route, h]
  · intro h
    have h8 : ¬ (ch ≤ 8) := by omega
    have h16 : ch ≤ 16 := by omega
    simp [read_value_route, h8, h16]
  · interval_cases ch <;> decide
  · rw [write_value, if_pos (by omega)]
  · rw [get_value, List.get?_eq_getElem?, List.getElem?_set_self (by omega)]

/-- Witness for `read_value_routing_amended` at channel 9: select pattern
`0b001` and multiplexer B. -/
theorem read_value_routing_amended_witness :
    set_select_pins 9 = spec_select_pattern 9 ∧
    read_value_route 9 = some WhichMux.B :=
  ⟨(read_value_routing_amended 9 (by decide) 1 1 (List.replicate 16 0)
      (by decide)).2.2.1,
    (read_value_routing_amended 9 (by decide) 1 1 (List.replicate 16 0)
      (by decide)).2.1 (by decide)⟩

/-- Claim C9: the claim says every channel accepted by the dispatch arms
(0 through 16 inclusive) reads and writes the 16-element cache in bounds.
Channel 16 is accepted (`9..=16` routes it to multiplexer B) yet both the
cache write and `get_value` index slot 16 of a 16-slot array — out of
bounds; channels 0 through 15 are in bounds. -/
theorem read_value_channel16_out_of_bounds :
    read_value_route 16 = some WhichMux.B ∧
    write_value (List.replicate 16 0) 16 1 = none ∧
    get_value (List.replicate 16 0) 16 = none ∧
    write_value (List.replicate 16 0) 15 1 ≠ none ∧
    get_value (List.replicate 16 0) 15 ≠ none := by
  refine ⟨by decide, by decide, by decide, by decide, by decide⟩

/-- Claim C10: the audio output of a grain is independent of its gain field —
`update_next_sample` multiplies the input only by the window value, and its
state transition copies the gain through unchanged — while `set_gain`
clamps its argument into `[0, 1]` and stores it. -/
theorem gain_noninterference (sn cs : ℚ → ℚ) (g : Grain) (a b x v : ℚ) :
    ({ g with gain := a }.update_next_sample sn cs x).1
      = ({ g with gain := b }.update_next_sample sn cs x).1 ∧
    ({ g with gain := a }.update_next_sample sn cs x).2
      = { ({ g with gain := b }.update_next_sample sn cs x).2 with gain := a } ∧
    (g.set_gain v).gain = (if 1 < v then 1 else if v < 0 then 0 else v) ∧
    0 ≤ (g.set_gain v).gain ∧ (g.set_gain v).gain ≤ 1 := by
  rcases g with ⟨o, cp, gn, sz, ph, sl, dn, w⟩
  refine ⟨?_, ?_, ?_, ?_, ?_⟩
  · cases dn <;>
      by_cases h : ph < sz <;>
        simp [Grain.update_next_sample, Grain.update_window_function, h]
  · cases dn <;>
      by_cases h : ph < sz <;>
        simp [Grain.update_next_sample, Grain.update_window_function, h]
  · simp only [Grain.set_gain]
    split_ifs <;> first | rfl | linarith
  · simp only [Grain.set_gain]
    split_ifs <;> linarith
  · simp only [Grain.set_gain]
    split_ifs <;> linarith
